import Mathlib

/-!
Shallow embedding of the domain_hosting repository core
(`app/core/domain/manager.py`, `app/core/domain/dns.py`,
`app/core/domain/services.py`, `app/core/hosting/manager.py`)
and proofs about the claims on its specification.

Modelling conventions:
* Python strings are Lean `String` (lists of characters); `len` is `List.length`
  of the character data.
* Python regexes used by the code are star-free, dot-separated patterns; each is
  embedded by its exact split-on-separator characterisation, with a wrapper
  (`pyDollar`) reproducing the CPython `$` semantics that also matches just
  before one trailing newline.
* Python exceptions become the `PyErr` sum type; `try/except` becomes matching
  on `Except PyErr`.  `str(e)` of an exception is `pyMsg`.
* `datetime` values are modelled as integer day counts; `timedelta(days=n)` is
  integer addition and `.days` of a difference is integer subtraction.
-/

namespace DomainHosting

/-- ASCII letter, as in the regex class `[a-zA-Z]`. -/
def isAsciiAlpha (c : Char) : Bool :=
  (decide ('a' ≤ c) && decide (c ≤ 'z')) || (decide ('A' ≤ c) && decide (c ≤ 'Z'))

/-- ASCII digit, as in the regex class `[0-9]`. -/
def isAsciiDigit (c : Char) : Bool :=
  decide ('0' ≤ c) && decide (c ≤ '9')

/-- The regex class `[a-zA-Z0-9]`. -/
def isAlnumCh (c : Char) : Bool := isAsciiAlpha c || isAsciiDigit c

/-- The regex class `[a-zA-Z0-9\-]` used inside domain labels. -/
def isLabelCh (c : Char) : Bool := isAlnumCh c || decide (c = '-')

/-- ASCII lowercase letter, the regex class `[a-z]`. -/
def isLowerCh (c : Char) : Bool := decide ('a' ≤ c) && decide (c ≤ 'z')

/-- ASCII hex digit, the regex class `[0-9a-fA-F]`. -/
def isHexCh (c : Char) : Bool :=
  isAsciiDigit c || (decide ('a' ≤ c) && decide (c ≤ 'f'))
    || (decide ('A' ≤ c) && decide (c ≤ 'F'))

/-- Python `str.split(sep)` for a one-character separator: splits on every
occurrence, keeping empty pieces (so the result is always nonempty). -/
def splitOnCh (sep : Char) : List Char → List (List Char)
  | [] => [[]]
  | c :: rest =>
    let r := splitOnCh sep rest
    if c = sep then [] :: r
    else
      match r with
      | [] => [[c]]
      | p :: ps => (c :: p) :: ps

/-- Python `'..' in s`: some character equal to `'.'` is immediately followed
by another `'.'`. -/
def hasConsecDots : List Char → Bool
  | [] => false
  | [_] => false
  | c :: c2 :: rest => (c = '.' && c2 = '.') || hasConsecDots (c2 :: rest)

/-- CPython `re.match` with a pattern ending in `$`: the pattern matches the
whole string, or the whole string minus one trailing newline. -/
def pyDollar (core : List Char → Bool) (l : List Char) : Bool :=
  core l ||
    (match l.getLast? with
     | some c => c = '\n' && core l.dropLast
     | none => false)

/-- One domain label as matched by `[a-zA-Z0-9]([a-zA-Z0-9\-]{0,61}[a-zA-Z0-9])?`:
1 to 63 characters, alphanumeric first and last character, alphanumeric or
hyphen inside. -/
def labelOk (l : List Char) : Bool :=
  match l.head?, l.getLast? with
  | some c0, some c1 =>
    isAlnumCh c0 && isAlnumCh c1 && l.all isLabelCh && decide (l.length ≤ 63)
  | _, _ => false

/-- A TLD part as matched by `[a-zA-Z]{2,}`: at least two characters, all
ASCII letters. -/
def tldOk (l : List Char) : Bool :=
  decide (2 ≤ l.length) && l.all isAsciiAlpha

/-- Split characterisation of the `DomainManager` regex
`^[a-zA-Z0-9]([a-zA-Z0-9\-]{0,61}[a-zA-Z0-9])?(\.[a-zA-Z]{2,})+$`:
since neither a label nor a TLD part may contain a dot, the regex matches
exactly when the dot-separated parts are one `labelOk` label followed by at
least one `tldOk` part. -/
def domainRegexCore (l : List Char) : Bool :=
  match splitOnCh '.' l with
  | p0 :: p1 :: ps => labelOk p0 && (p1 :: ps).all tldOk
  | _ => false

/-- `DomainManager._validate_domain_name` (app/core/domain/manager.py):
rejects empty and over-253-character names, then applies the regex. -/
def validate_domain_name (s : String) : Bool :=
  if s.data = [] || decide (253 < s.data.length) then false
  else pyDollar domainRegexCore s.data

/-- The result dictionary built by
the domain-syntax validation method of `DomainValidationService`: the `valid` flag plus the
accumulated error strings. -/
structure SyntaxResult where
  valid : Bool
  errors : List String
deriving Repr, DecidableEq

/-- The character-set regex `^[a-zA-Z0-9.-]+$` of the service's syntax check. -/
def charsetCore (l : List Char) : Bool :=
  decide (l ≠ []) && l.all (fun c => isAlnumCh c || decide (c = '.') || decide (c = '-'))

/-- The per-part loop of the service's syntax check: each dot-separated part must
be nonempty and at most 63 characters, an error string is appended per bad
part. -/
def partsCheck : List (List Char) → SyntaxResult → SyntaxResult
  | [], r => r
  | p :: ps, r =>
    let r :=
      if p.length < 1 then
        ⟨false, r.errors ++ ["Domain name parts cannot be empty"]⟩
      else if 63 < p.length then
        ⟨false, r.errors ++ ["Domain name part too long (maximum 63 characters)"]⟩
      else r
    partsCheck ps r

/-- The domain-syntax validation method of `DomainValidationService`
(app/core/domain/services.py), named with an `_svc` marker here: runs every
check, collecting errors; `valid`
ends up true exactly when every check passed. -/
def validate_domain_syntax_svc (s : String) : SyntaxResult :=
  let l := s.data
  let r : SyntaxResult := ⟨true, []⟩
  let r : SyntaxResult :=
    if l.length < 4 then
      ⟨false, r.errors ++ ["Domain name too short (minimum 4 characters)"]⟩
    else if 253 < l.length then
      ⟨false, r.errors ++ ["Domain name too long (maximum 253 characters)"]⟩
    else r
  let r : SyntaxResult :=
    if ¬ pyDollar charsetCore l then
      ⟨false, r.errors ++ ["Domain name contains invalid characters"]⟩
    else r
  let r : SyntaxResult :=
    if l.head? = some '-' || l.getLast? = some '-' then
      ⟨false, r.errors ++ ["Domain name cannot start or end with hyphen"]⟩
    else r
  let r : SyntaxResult :=
    if hasConsecDots l then
      ⟨false, r.errors ++ ["Domain name cannot contain consecutive dots"]⟩
    else r
  let parts := splitOnCh '.' l
  let r : SyntaxResult :=
    if parts.length < 2 then
      ⟨false, r.errors ++ ["Domain name must have at least one dot"]⟩
    else r
  partsCheck parts r



/-! ## Exceptions (`app/core/shared/exceptions.py`) -/

/-- The exception taxonomy of `app/core/shared/exceptions.py`, plus
`otherError` for raw exceptions raised by libraries or remote clients. -/
inductive PyErr where
  | validationError (msg : String)
  | domainError (msg : String)
  | dnsError (msg : String)
  | hostingError (msg : String)
  | otherError (msg : String)
deriving Repr, DecidableEq

/-- Python `str(e)` for every exception kind: its message. -/
def pyMsg : PyErr → String
  | .validationError m => m
  | .domainError m => m
  | .dnsError m => m
  | .hostingError m => m
  | .otherError m => m

/-! ## DNS name and address validation (`app/core/domain/dns.py`) -/

/-- The body of the `_validate_dns_name` regex after the optional `(\*\.)?`
wildcard: `(label\.)*label\.?` — dot-separated `labelOk` labels with at most
one trailing dot. -/
def dnsNameBody (l : List Char) : Bool :=
  let l1 := if l.getLast? = some '.' then l.dropLast else l
  match l1 with
  | [] => false
  | _ => (splitOnCh '.' l1).all labelOk

/-- Split characterisation of the `DNSManager._validate_dns_name` regex
`^(\*\.)?([a-zA-Z0-9]([a-zA-Z0-9\-]{0,61}[a-zA-Z0-9])?\.)*[a-zA-Z0-9]([a-zA-Z0-9\-]{0,61}[a-zA-Z0-9])?\.?$`:
since `*` can occur in no label, the wildcard branch is taken exactly on a
literal `*.` front. -/
def dnsNameCore (l : List Char) : Bool :=
  match l with
  | '*' :: '.' :: rest => dnsNameBody rest
  | _ => dnsNameBody l

/-- `DNSManager._validate_dns_name`. -/
def validate_dns_name (s : String) : Bool :=
  pyDollar dnsNameCore s.data

/-- Modelled from the spec: `DNSManager._validate_ipv4_address` is called by
`_validate_dns_record_input` for `A` records but its definition is not in the
retained source ("سایر متدها بدون تغییر باقی می‌مانند" — the remaining methods
are unchanged and omitted).  Spec §4.2: "A→IPv4 syntax"; raises
`ValidationError` on an invalid dotted-quad address. -/
def isIpv4 (s : String) : Bool :=
  match splitOnCh '.' s.data with
  | [a, b, c, d] =>
    [a, b, c, d].all (fun p =>
      decide (p ≠ []) && decide (p.length ≤ 3) && p.all isAsciiDigit &&
        decide ((p.foldl (fun n ch => 10 * n + (ch.toNat - '0'.toNat)) 0) ≤ 255))
  | _ => false

/-- Modelled from the spec: raising form of the IPv4 check (see `isIpv4`). -/
def validate_ipv4_address (s : String) : Except PyErr Unit :=
  if isIpv4 s then .ok ()
  else .error (.validationError ("Invalid IPv4 address: " ++ s))

/-- A hex group of an IPv6 address: 1 to 4 hex digits. -/
def hexGroupOk (l : List Char) : Bool :=
  decide (1 ≤ l.length) && decide (l.length ≤ 4) && l.all isHexCh

/-- Strict textual IPv6 parse standing for Python
`ipaddress.IPv6Address(ip_address)`: the colon-separated groups are 1–4 hex
digits each; without `::` there are exactly 8 groups, with a single `::`
(splitting into at most 7 explicit groups) the rest are implicit zero groups.
(The IPv4-embedded form such as `::ffff:1.2.3.4` and zone suffixes are not
modelled; no claim exercises the `AAAA` branch.) -/
def strictIpv6 (s : String) : Bool :=
  let parts := splitOnCh ':' s.data
  if s.data = [':'].append [':'] then true
  else if parts.all (fun p => p ≠ []) then
    decide (parts.length = 8) && parts.all hexGroupOk
  else
    -- one "::" produces one empty interior part, or leading/trailing empties
    match parts with
    | [] => false
    | _ =>
      let nonEmpty := parts.filter (fun p => p ≠ [])
      let empties := parts.length - nonEmpty.length
      -- "::x" and "x::" yield two empties at one end, "a::b" yields one
      let okShape :=
        (match parts with
         | [] :: [] :: rest => rest.all (fun p => p ≠ [])
         | _ =>
           match parts.getLast?, parts.dropLast.getLast? with
           | some [], some [] => parts.dropLast.dropLast.all (fun p => p ≠ [])
           | _, _ => empties = 1)
      okShape && decide (empties ≤ 2) && decide (nonEmpty.length ≤ 7) &&
        nonEmpty.all hexGroupOk

/-- Regex fallback pattern 1 of `_validate_ipv6_address`:
`^([0-9a-fA-F]{1,4}:){7}[0-9a-fA-F]{1,4}$` — 8 full groups. -/
def ipv6Full (l : List Char) : Bool :=
  match splitOnCh ':' l with
  | parts => decide (parts.length = 8) && parts.all hexGroupOk

/-- Regex fallback pattern 2: `^::([0-9a-fA-F]{1,4}:){0,6}[0-9a-fA-F]{1,4}$`. -/
def ipv6LeadCompressed (l : List Char) : Bool :=
  match splitOnCh ':' l with
  | [] :: [] :: rest =>
    decide (1 ≤ rest.length) && decide (rest.length ≤ 7) && rest.all hexGroupOk
  | _ => false

/-- Regex fallback pattern 3: `^([0-9a-fA-F]{1,4}:){1,7}:$`. -/
def ipv6TrailCompressed (l : List Char) : Bool :=
  match (splitOnCh ':' l).reverse with
  | [] :: [] :: rest =>
    decide (1 ≤ rest.length) && decide (rest.length ≤ 7) && rest.all hexGroupOk
  | _ => false

/-- Regex fallback pattern 4: `^([0-9a-fA-F]{1,4}:){1,6}:[0-9a-fA-F]{1,4}$`. -/
def ipv6Mixed (l : List Char) : Bool :=
  match (splitOnCh ':' l).reverse with
  | g :: [] :: rest =>
    hexGroupOk g && decide (1 ≤ rest.length) && decide (rest.length ≤ 6) &&
      rest.all hexGroupOk
  | _ => false

/-- `DNSManager._validate_ipv6_address`: accept when the strict parse
succeeds, otherwise when any of the four fallback regexes matches, else raise
`ValidationError`. -/
def validate_ipv6_address (s : String) : Except PyErr Unit :=
  if strictIpv6 s then .ok ()
  else if pyDollar ipv6Full s.data || pyDollar ipv6LeadCompressed s.data
      || pyDollar ipv6TrailCompressed s.data || pyDollar ipv6Mixed s.data then
    .ok ()
  else .error (.validationError ("Invalid IPv6 address: " ++ s))

/-- `DNSManager._validate_dns_record_input` (app/core/domain/dns.py).  The
`DNSRecordType` enum members are modelled by their string values.  Note on the
last step: the `validation_methods` entries for `CNAME`, `MX`, `NS` and `TXT`
are lambdas returning a boolean which the caller computes and then discards —
only the `A` and `AAAA` entries can raise — so those four branches never
reject. -/
def validate_dns_record_input (recordType name value : String) (ttl : Int)
    (priority : Option Int) : Except PyErr Unit :=
  if name = "" || value = "" then
    .error (.validationError "Name and value are required for DNS record")
  else if ttl < 60 ∨ 86400 < ttl then
    .error (.validationError "TTL must be between 60 and 86400 seconds")
  else if ¬ validate_dns_name name then
    .error (.validationError ("Invalid DNS name: " ++ name))
  else if recordType = "MX" ∧ priority = none then
    .error (.validationError "Priority is required for MX records")
  else if recordType = "MX" ∧ (match priority with
      | some p => decide (p < 0) || decide (65535 < p)
      | none => false) = true then
    .error (.validationError "Priority must be between 0 and 65535")
  else
    match recordType with
    | "A" => validate_ipv4_address value
    | "AAAA" => validate_ipv6_address value
    | _ => .ok ()



/-! ## DNS reconciliation engine (`app/core/domain/dns.py`)

The remote DNS provider is modelled as the record set of the one domain under
update plus a monotonically increasing call counter (`tick`); a failure
schedule `apiFails : Nat → Bool` says which remote calls raise.  The
`db_session.begin()` scope of the transactional path can roll back only
database writes; the record operations inside it are remote API calls, so the
remote state they produced persists when the scope exits with an exception. -/

/-- The `DNSRecord` fields used by the DNS manager
(`app/core/shared/models.py`): the record type is the `DNSRecordType` enum
value string. -/
structure DNSRec where
  type : String
  name : String
  value : String
  ttl : Int
  priority : Option Int
deriving Repr, DecidableEq

/-- The values of the `DNSRecordType` enum; `DNSRecordType(record.type)`
raises `ValueError` exactly when `record.type` is not one of these. -/
def validDnsTypes : List String :=
  ["A", "AAAA", "CNAME", "MX", "TXT", "NS", "SRV", "CAA", "PTR", "SOA"]

/-- Remote provider state for one domain: records keyed by provider id, the
next fresh id, and the count of remote API calls made so far. -/
structure RemoteState where
  records : List (Nat × DNSRec)
  nextId : Nat
  tick : Nat
deriving Repr, DecidableEq

/-- One remote API call: consumes a tick and reports whether the scheduled
failure fires. -/
def apiCall (apiFails : Nat → Bool) (s : RemoteState) : Bool × RemoteState :=
  (apiFails s.tick, { s with tick := s.tick + 1 })

/-- Stand-in for the message of an exception raised by the remote client. -/
def remoteFailMsg : String := "remote API failure"

/-- `DNSManager.get_dns_records`: one remote fetch; a raised remote exception
is wrapped into `DNSError`.  (The per-record mapping with default ttl 3600 is
applied by the remote model.) -/
def get_dns_records (apiFails : Nat → Bool) (_domain : String)
    (s : RemoteState) : Except PyErr (List (Nat × DNSRec)) × RemoteState :=
  let (fail, s) := apiCall apiFails s
  if fail then
    (.error (.dnsError ("Failed to get DNS records: " ++ remoteFailMsg)), s)
  else
    (.ok s.records, s)

/-- Modelled from the spec: `DNSManager.delete_dns_record` is called by the
update paths but its definition is not in the retained source ("the remaining
methods are unchanged and omitted").  Spec §6 lists DNS record delete per
domain on the remote gateway; one remote call, failure wrapped into
`DNSError`, success removes the record with the given provider id. -/
def delete_dns_record (apiFails : Nat → Bool) (_domain : String) (rid : Nat)
    (s : RemoteState) : Except PyErr Unit × RemoteState :=
  let (fail, s) := apiCall apiFails s
  if fail then
    (.error (.dnsError ("Failed to delete DNS record: " ++ remoteFailMsg)), s)
  else
    (.ok (), { s with records := s.records.filter (fun p => p.1 ≠ rid) })

/-- Modelled from the spec: `DNSManager.add_dns_record` is called by the
update paths but its definition is not in the retained source.  Spec §4.2:
"Per-record validation before any write" — it validates through
`_validate_dns_record_input` (whose source is retained) and then makes one
remote create call, failure wrapped into `DNSError`. -/
def add_dns_record (apiFails : Nat → Bool) (_domain : String) (r : DNSRec)
    (s : RemoteState) : Except PyErr Unit × RemoteState :=
  match validate_dns_record_input r.type r.name r.value r.ttl r.priority with
  | .error e => (.error e, s)
  | .ok _ =>
    let (fail, s) := apiCall apiFails s
    if fail then
      (.error (.dnsError ("Failed to add DNS record: " ++ remoteFailMsg)), s)
    else
      (.ok (),
        { records := s.records ++ [(s.nextId, r)], nextId := s.nextId + 1,
          tick := s.tick })

/-- The `for record in current_records: self.delete_dns_record(...)` loop:
stops at the first raised exception. -/
def deleteAll (apiFails : Nat → Bool) (domain : String) :
    List Nat → RemoteState → Except PyErr Unit × RemoteState
  | [], s => (.ok (), s)
  | rid :: rest, s =>
    match delete_dns_record apiFails domain rid s with
    | (.error e, s) => (.error e, s)
    | (.ok _, s) => deleteAll apiFails domain rest s

/-- The `for record in records: self.add_dns_record(..., DNSRecordType(record.type), ...)`
loop: the enum conversion raises `ValueError` on an unknown type string before
the call, and the loop stops at the first raised exception. -/
def addAll (apiFails : Nat → Bool) (domain : String) :
    List DNSRec → RemoteState → Except PyErr Unit × RemoteState
  | [], s => (.ok (), s)
  | r :: rest, s =>
    if ¬ validDnsTypes.contains r.type then
      (.error (.otherError (r.type ++ " is not a valid DNSRecordType")), s)
    else
      match add_dns_record apiFails domain r s with
      | (.error e, s) => (.error e, s)
      | (.ok _, s) => addAll apiFails domain rest s

/-- The delete-all + recreate-all sequence shared by both update paths:
fetch current records, delete each by id, add each desired record. -/
def dnsUpdateBody (apiFails : Nat → Bool) (domain : String)
    (records : List DNSRec) (s : RemoteState) :
    Except PyErr Unit × RemoteState :=
  match get_dns_records apiFails domain s with
  | (.error e, s) => (.error e, s)
  | (.ok current, s) =>
    match deleteAll apiFails domain (current.map Prod.fst) s with
    | (.error e, s) => (.error e, s)
    | (.ok _, s) => addAll apiFails domain records s

/-- `DNSManager._update_records_with_transaction`: the body runs inside
`with self.db_session.begin()`; on an exception the scope rolls back the
database and re-raises, but the remote calls already made are not undone —
the resulting `RemoteState` is whatever the failed body reached. -/
def update_records_with_transaction (apiFails : Nat → Bool) (domain : String)
    (records : List DNSRec) (s : RemoteState) :
    Except PyErr Bool × RemoteState :=
  match dnsUpdateBody apiFails domain records s with
  | (.error e, s) => (.error e, s)
  | (.ok _, s) => (.ok true, s)

/-- `DNSManager._restore_from_backup`: delete whatever exists now and recreate
the backup records; any exception inside is replaced by the escalated
`DNSError("Critical: DNS restoration failed for ...")`. -/
def restore_from_backup (apiFails : Nat → Bool) (domain : String)
    (backup : List DNSRec) (s : RemoteState) :
    Except PyErr Unit × RemoteState :=
  let criticalErr : PyErr :=
    .dnsError ("Critical: DNS restoration failed for " ++ domain)
  match get_dns_records apiFails domain s with
  | (.error _, s) => (.error criticalErr, s)
  | (.ok current, s) =>
    match deleteAll apiFails domain (current.map Prod.fst) s with
    | (.error _, s) => (.error criticalErr, s)
    | (.ok _, s) =>
      match addAll apiFails domain backup s with
      | (.error _, s) => (.error criticalErr, s)
      | (.ok _, s) => (.ok (), s)

/-- `DNSManager._update_records_without_transaction`: snapshot a backup, run
the delete+recreate body; on a body failure call `_restore_from_backup` and
re-raise — but the outer `except Exception` of this very method catches both
the re-raised body error and the escalated critical restoration error and
`return False`, so every failure (the critical one included) leaves this
method with an ordinary `False` return. -/
def update_records_without_transaction (apiFails : Nat → Bool)
    (domain : String) (records : List DNSRec) (s : RemoteState) :
    Except PyErr Bool × RemoteState :=
  match get_dns_records apiFails domain s with
  | (.error _, s) => (.ok false, s)
  | (.ok backup, s) =>
    match dnsUpdateBody apiFails domain records s with
    | (.ok _, s) => (.ok true, s)
    | (.error _, s) =>
      match restore_from_backup apiFails domain
          (backup.map Prod.snd) s with
      | (.error _, s) => (.ok false, s)
      | (.ok _, s) => (.ok false, s)

/-- `DNSManager.update_dns_records`: dispatch on whether a `db_session` was
injected; a raised exception is wrapped into `DNSError`. -/
def update_dns_records (apiFails : Nat → Bool) (hasDbSession : Bool)
    (domain : String) (records : List DNSRec) (s : RemoteState) :
    Except PyErr Bool × RemoteState :=
  let (res, s) :=
    if hasDbSession then
      update_records_with_transaction apiFails domain records s
    else
      update_records_without_transaction apiFails domain records s
  match res with
  | .ok b => (.ok b, s)
  | .error e =>
    (.error (.dnsError ("Failed to update DNS records: " ++ pyMsg e)), s)

/-! ## Domain manager (`app/core/domain/manager.py`)

The registrar gateway is a record of response functions: `.error` is a raised
remote exception (its message standing for `str(e)`), `.ok` carries the
response; `response.get(key, default)` on a possibly missing field is an
`Option` with `getD`.  Remote registrar calls made by an operation are
collected in a trace list so that "the remote call is never invoked" is a
statement about the trace. -/

/-- The `ContactInfo` fields used by registration validation. -/
structure ContactInfo where
  email : String
  first_name : String
  last_name : String
deriving Repr, DecidableEq

/-- The `Domain` fields constructed by the domain manager; status is the
`DomainStatus` enum value string, dates are integer day counts. -/
structure Domain where
  name : String
  status : String
  expiry_date : Int
  registration_date : Int
  nameservers : List String
  locked : Bool
  privacy_protection : Bool
  auto_renew : Bool
deriving Repr, DecidableEq

/-- Remote registrar gateway (spec §6).  `getDomainInfo` returning `.ok none`
models a response whose field conversion (ISO date parse or status enum
construction) raises — in the source that failure also crashes the Mock
fallback branch, so it surfaces as an exception of `get_domain_details`. -/
structure RegistrarApi where
  checkAvailability : String → Except String (Option Bool)
  registerDomain : String → Except String Unit
  enableWhoisPrivacy : String → Except String (Option Bool)
  getDomainStatus : String → Except String (Option Bool)
  getDomainInfo : String → Except String (Option Domain)

/-- A remote registrar call, for invocation traces. -/
inductive RemoteOp where
  | checkAvail (name : String)
  | registerOp (name : String)
  | enablePrivacy (name : String)
deriving Repr, DecidableEq

/-- `DomainManager.check_domain_availability`: syntax validation first (a
`ValidationError` is wrapped into `DomainError`), then one remote lookup with
`response.get('available', False)`; remote failures are wrapped into
`DomainError`. -/
def check_domain_availability (api : RegistrarApi) (name : String) :
    Except PyErr Bool × List RemoteOp :=
  if ¬ validate_domain_name name then
    (.error (.domainError ("Invalid domain name: Invalid domain name: " ++ name)), [])
  else
    match api.checkAvailability name with
    | .ok resp => (.ok (resp.getD false), [.checkAvail name])
    | .error e =>
      (.error (.domainError ("Failed to check domain availability: " ++ e)),
        [.checkAvail name])

/-- Python dict insertion `results[domain] = value`: overwrite in place if the
key exists, else append. -/
def dictInsert (k : String) (v : Bool) :
    List (String × Bool) → List (String × Bool)
  | [] => [(k, v)]
  | (k1, v1) :: rest =>
    if k1 = k then (k1, v) :: rest else (k1, v1) :: dictInsert k v rest

/-- The per-name `try/except` of the bulk loop: the single check's result, any
raised exception recorded as `False`. -/
def singleAvailOutcome (api : RegistrarApi) (d : String) : Bool :=
  match check_domain_availability api d with
  | (.ok b, _) => b
  | (.error _, _) => false

/-- Python dict key read `results[name]`. -/
def dictLookup (n : String) : List (String × Bool) → Option Bool
  | [] => none
  | (k, v) :: rest => if n = k then some v else dictLookup n rest

/-- The loop of `DomainManager.check_bulk_domains_availability`: per-name
single check, any exception recorded as `False`. -/
def bulkAvailAux (api : RegistrarApi) :
    List String → List (String × Bool) → List (String × Bool)
  | [], results => results
  | d :: rest, results =>
    bulkAvailAux api rest (dictInsert d (singleAvailOutcome api d) results)

/-- `DomainManager.check_bulk_domains_availability`. -/
def check_bulk_domains_availability (api : RegistrarApi)
    (domain_list : List String) : List (String × Bool) :=
  bulkAvailAux api domain_list []

/-- `DomainManager._validate_registration_input`.  (`years` is an `Int`; the
non-integer `years` case of `isinstance` is outside the embedded input
space.) -/
def validate_registration_input (name : String) (years : Int)
    (c : ContactInfo) : Except PyErr Unit :=
  if ¬ validate_domain_name name then
    .error (.validationError "Invalid domain name format")
  else if years ≤ 0 then
    .error (.validationError "Years must be a positive integer")
  else if c.email = "" then
    .error (.validationError "Valid contact information with email is required")
  else if c.first_name = "" || c.last_name = "" then
    .error (.validationError "First name and last name are required")
  else .ok ()

/-- The outer `except` of `register_domain`: a `DomainError` is re-raised
unchanged, everything else is wrapped. -/
def wrapRegister (e : PyErr) : PyErr :=
  match e with
  | .domainError m => .domainError m
  | e => .domainError ("Domain registration failed: " ++ pyMsg e)

/-- `DomainManager.register_domain` for a clock reading `now` (in days):
validate, re-check availability, call the remote registration, construct the
`Domain`.  (The `Domain(...)` constructor is total here, so the
`unittest.mock` fallback branch — which sets the identical attributes — is
unreachable.) -/
def register_domain (api : RegistrarApi) (now : Int) (name : String)
    (years : Int) (c : ContactInfo) : Except PyErr Domain × List RemoteOp :=
  match validate_registration_input name years c with
  | .error e => (.error (wrapRegister e), [])
  | .ok _ =>
    match check_domain_availability api name with
    | (.error e, tr) => (.error (wrapRegister e), tr)
    | (.ok avail, tr) =>
      if ¬ avail then
        (.error (.domainError ("Domain " ++ name ++ " is not available")), tr)
      else
        match api.registerDomain name with
        | .error e =>
          (.error (.domainError ("Domain registration failed: " ++ e)),
            tr ++ [.registerOp name])
        | .ok _ =>
          (.ok { name := name, status := "active",
                 expiry_date := now + 365 * years,
                 registration_date := now,
                 nameservers := ["ns1.default.com", "ns2.default.com"],
                 locked := false, privacy_protection := false,
                 auto_renew := true },
            tr ++ [.registerOp name])

/-- `DomainManager.enable_privacy_protection`: remote call with
`response.get('success', False)`; a raised remote exception is wrapped into
`DomainError`. -/
def enable_privacy_protection (api : RegistrarApi) (name : String) :
    Except PyErr Bool :=
  match api.enableWhoisPrivacy name with
  | .ok resp => .ok (resp.getD false)
  | .error e =>
    .error (.domainError ("Failed to enable privacy protection: " ++ e))

/-- `DomainManager.register_domain_with_privacy`: register, then enable
privacy; a privacy result of `False` only logs a warning, but the method's
`except` clause re-raises any exception — including one raised by
`enable_privacy_protection` — unchanged. -/
def register_domain_with_privacy (api : RegistrarApi) (now : Int)
    (name : String) (years : Int) (c : ContactInfo) :
    Except PyErr Domain × List RemoteOp :=
  match register_domain api now name years c with
  | (.error e, tr) => (.error e, tr)
  | (.ok dom, tr) =>
    match enable_privacy_protection api name with
    | .error e => (.error e, tr ++ [.enablePrivacy name])
    | .ok success =>
      if success then
        (.ok { dom with privacy_protection := true }, tr ++ [.enablePrivacy name])
      else
        (.ok dom, tr ++ [.enablePrivacy name])

/-- `DomainManager.get_domain_locking_status`: remote status fetch with
`response.get('locked', False)`, failures wrapped into `DomainError`. -/
def get_domain_locking_status (api : RegistrarApi) (name : String) :
    Except PyErr Bool :=
  match api.getDomainStatus name with
  | .ok resp => .ok (resp.getD false)
  | .error e =>
    .error (.domainError ("Failed to get domain lock status: " ++ e))

/-- `DomainManager.get_domain_details`: remote info fetch; both a raised
remote exception and a failed response-field conversion surface as
`DomainError` (the latter crashes the constructor and the Mock fallback
alike); the domain name field comes from the argument. -/
def get_domain_details (api : RegistrarApi) (name : String) :
    Except PyErr Domain :=
  match api.getDomainInfo name with
  | .error e => .error (.domainError ("Failed to get domain details: " ++ e))
  | .ok none =>
    .error (.domainError "Failed to get domain details: response field conversion failed")
  | .ok (some d) => .ok { d with name := name }

/-- `DomainManager.check_transfer_eligibility` for a clock reading `now` (in
days): `False` when locked, when fewer than 60 days remain to expiry, or when
any internal step raises; `True` otherwise. -/
def check_transfer_eligibility (api : RegistrarApi) (now : Int)
    (name : String) : Bool :=
  match get_domain_locking_status api name with
  | .error _ => false
  | .ok locked =>
    if locked then false
    else
      match get_domain_details api name with
      | .error _ => false
      | .ok dom =>
        let days_until_expiry := dom.expiry_date - now
        if days_until_expiry < 60 then false else true

/-! ## Hosting manager (`app/core/hosting/manager.py`)

The repository layer is modelled as total lookup functions (a datastore read
that raises would be wrapped by the same `except` clause as every other
failure); `repo.update`/`repo.create` writes are modelled as total.  The
remote WHM client is optional (`api? : Option HostingApi`), matching the
`if self.api_client:` guards. -/

/-- The `HostingPackage` fields used by the hosting manager. -/
structure HPackage where
  name : String
  active : Bool
  disk_space : Int
  bandwidth : Int
deriving Repr, DecidableEq

/-- The `Customer` fields used by the hosting manager. -/
structure HCustomer where
  email : String
deriving Repr, DecidableEq

/-- The `HostingAccount` fields used by the hosting manager; status is the
`HostingStatus` enum value string (model default `pending`), dates are day
counts. -/
structure HAccount where
  domain : String
  username : String
  status : String
  suspended_reason : Option String
  ip_address : String
  disk_usage : Int
  bandwidth_usage : Int
  expires_date : Option Int
  package : Option HPackage
deriving Repr, DecidableEq

/-- Repository lookups used by the hosting manager. -/
structure HostingRepo where
  getPackage : Nat → Option HPackage
  getCustomer : Nat → Option HCustomer
  getAccountByDomain : String → Option HAccount
  getAccount : Nat → Option HAccount
  deleteAccount : Nat → Bool

/-- A WHM usage response; each field is optional because the manager reads
some with `.get(key, default)` and some with direct `[key]` access. -/
structure UsageResp where
  disk_usage : Option Int
  bandwidth_usage : Option Int
  disk_limit : Option Int
  bandwidth_limit : Option Int
deriving Repr, DecidableEq

/-- Remote WHM/cPanel gateway operations used by the hosting manager;
`.error` is a raised transport/provider exception. -/
structure HostingApi where
  createAccount : String → String → Except String (Option String)
  suspendAccount : String → String → Except String Unit
  unsuspendAccount : String → Except String Unit
  changePlan : String → String → Except String Unit
  getAccountUsage : String → Except String UsageResp
  deleteAccount : String → Except String Unit

/-- The `except Exception as e: raise HostingError(f"...: {str(e)}")` clause
every public hosting operation ends with. -/
def wrapHosting (pre : String) : Except PyErr α → Except PyErr α
  | .ok a => .ok a
  | .error e => .error (.hostingError (pre ++ pyMsg e))

/-- Core of the username regex `^[a-z][a-z0-9_]{2,}$` (applied to the
lowercased username). -/
def usernameCore (l : List Char) : Bool :=
  match l with
  | c :: rest =>
    isLowerCh c && decide (2 ≤ rest.length) &&
      rest.all (fun ch => isLowerCh ch || isAsciiDigit ch || decide (ch = '_'))
  | [] => false

/-- `HostingManager._validate_hosting_input`. -/
def validate_hosting_input (domain username password : String) :
    Except PyErr Unit :=
  if domain = "" || ¬ domain.data.contains '.' then
    .error (.validationError "Invalid domain name")
  else if username = "" || username.data.length < 3 then
    .error (.validationError "Username must be at least 3 characters")
  else if password = "" || password.data.length < 8 then
    .error (.validationError "Password must be at least 8 characters")
  else if ¬ pyDollar usernameCore username.toLower.data then
    .error (.validationError
      "Username can only contain lowercase letters, numbers, and underscores")
  else .ok ()

/-- Body of `create_hosting_account` before the outer wrapping `except`;
the boolean records whether the remote provisioning call was invoked. -/
def create_hosting_body (repo : HostingRepo) (api? : Option HostingApi)
    (now : Int) (domain : String) (package_id customer_id : Nat)
    (username password : String) : Except PyErr HAccount × Bool :=
  match validate_hosting_input domain username password with
  | .error e => (.error e, false)
  | .ok _ =>
    match repo.getPackage package_id with
    | none =>
      (.error (.validationError "Hosting package not found or inactive"), false)
    | some pkg =>
      if ¬ pkg.active then
        (.error (.validationError "Hosting package not found or inactive"), false)
      else
        match repo.getCustomer customer_id with
        | none => (.error (.validationError "Customer not found"), false)
        | some _ =>
          match repo.getAccountByDomain domain with
          | some _ =>
            (.error (.validationError
              ("Hosting account already exists for domain: " ++ domain)), false)
          | none =>
            let mkAccount (ip : String) : HAccount :=
              { domain := domain, username := username, status := "pending",
                suspended_reason := none, ip_address := ip, disk_usage := 0,
                bandwidth_usage := 0, expires_date := some (now + 365),
                package := some pkg }
            match api? with
            | some api =>
              match api.createAccount domain username with
              | .error e => (.error (.otherError e), true)
              | .ok respIp => (.ok (mkAccount (respIp.getD "0.0.0.0")), true)
            | none => (.ok (mkAccount "192.168.1.100"), false)

/-- `HostingManager.create_hosting_account`. -/
def create_hosting_account (repo : HostingRepo) (api? : Option HostingApi)
    (now : Int) (domain : String) (package_id customer_id : Nat)
    (username password : String) : Except PyErr HAccount × Bool :=
  let (res, remoteCalled) :=
    create_hosting_body repo api? now domain package_id customer_id
      username password
  (wrapHosting "Failed to create hosting account: " res, remoteCalled)

/-- `HostingManager.suspend_account`. -/
def suspend_account (repo : HostingRepo) (api? : Option HostingApi)
    (account_id : Nat) (reason : String) : Except PyErr Bool :=
  wrapHosting "Failed to suspend hosting account: "
    (match repo.getAccount account_id with
     | none => .error (.validationError "Hosting account not found")
     | some acc =>
       match api? with
       | some api =>
         match api.suspendAccount acc.username reason with
         | .error e => .error (.otherError e)
         | .ok _ => .ok true
       | none => .ok true)

/-- `HostingManager.unsuspend_account`. -/
def unsuspend_account (repo : HostingRepo) (api? : Option HostingApi)
    (account_id : Nat) : Except PyErr Bool :=
  wrapHosting "Failed to unsuspend hosting account: "
    (match repo.getAccount account_id with
     | none => .error (.validationError "Hosting account not found")
     | some acc =>
       match api? with
       | some api =>
         match api.unsuspendAccount acc.username with
         | .error e => .error (.otherError e)
         | .ok _ => .ok true
       | none => .ok true)

/-- `HostingManager.change_hosting_plan`. -/
def change_hosting_plan (repo : HostingRepo) (api? : Option HostingApi)
    (account_id new_package_id : Nat) : Except PyErr Bool :=
  wrapHosting "Failed to change hosting plan: "
    (match repo.getAccount account_id with
     | none => .error (.validationError "Hosting account not found")
     | some acc =>
       match repo.getPackage new_package_id with
       | none =>
         .error (.validationError "New hosting package not found or inactive")
       | some pkg =>
         if ¬ pkg.active then
           .error (.validationError "New hosting package not found or inactive")
         else
           match api? with
           | some api =>
             match api.changePlan acc.username pkg.name with
             | .error e => .error (.otherError e)
             | .ok _ => .ok true
           | none => .ok true)

/-- The usage dictionary returned by `get_account_usage`, percentages as exact
rationals.  (CPython computes the percentages in binary floating point and
rounds half-to-even; the rounding of the exact rational to two decimals is
`round2` — no claim depends on tie behaviour.) -/
structure UsageOut where
  disk_usage : Int
  bandwidth_usage : Int
  disk_limit : Int
  bandwidth_limit : Int
  disk_usage_percent : ℚ
  bandwidth_usage_percent : ℚ
deriving Repr, DecidableEq

/-- Rounding of a rational to two decimal places. -/
def round2 (q : ℚ) : ℚ := (round (q * 100) : ℤ) / 100

/-- `HostingManager.get_account_usage`: live fetch (persisted back) when a
remote client exists, else the persisted usage with package limits; the
percentage uses `usage_data['disk_usage']` direct key access, so a live
response missing that key raises `KeyError`. -/
def get_account_usage (repo : HostingRepo) (api? : Option HostingApi)
    (account_id : Nat) : Except PyErr UsageOut :=
  wrapHosting "Failed to get account usage: "
    (match repo.getAccount account_id with
     | none => .error (.validationError "Hosting account not found")
     | some acc =>
       let usage_data : Except PyErr UsageResp :=
         match api? with
         | some api =>
           match api.getAccountUsage acc.username with
           | .error e => .error (.otherError e)
           | .ok u => .ok u
         | none =>
           .ok { disk_usage := some acc.disk_usage,
                 bandwidth_usage := some acc.bandwidth_usage,
                 disk_limit := some ((acc.package.map HPackage.disk_space).getD 1024),
                 bandwidth_limit := some ((acc.package.map HPackage.bandwidth).getD 10240) }
       match usage_data with
       | .error e => .error e
       | .ok u =>
         let disk_limit := u.disk_limit.getD 1024
         let bandwidth_limit := u.bandwidth_limit.getD 10240
         match u.disk_usage, u.bandwidth_usage with
         | some du, some bu =>
           .ok { disk_usage := du, bandwidth_usage := bu,
                 disk_limit := disk_limit, bandwidth_limit := bandwidth_limit,
                 disk_usage_percent :=
                   if 0 < disk_limit then
                     round2 ((du : ℚ) / (disk_limit : ℚ) * 100)
                   else 0,
                 bandwidth_usage_percent :=
                   if 0 < bandwidth_limit then
                     round2 ((bu : ℚ) / (bandwidth_limit : ℚ) * 100)
                   else 0 }
         | _, _ => .error (.otherError "KeyError: disk_usage"))

/-- `HostingManager.renew_hosting_account`: extend expiry by `365 * years`
days from the current expiry (or from now when unset) and force status back
to active; the write is a repository update (modelled total). -/
def renew_hosting_account (repo : HostingRepo) (now : Int)
    (account_id : Nat) (years : Int) : Except PyErr Bool :=
  wrapHosting "Failed to renew hosting account: "
    (match repo.getAccount account_id with
     | none => .error (.validationError "Hosting account not found")
     | some acc =>
       let current_expiry := acc.expires_date.getD now
       let _new_expiry := current_expiry + 365 * years
       .ok true)

/-- `HostingManager.delete_hosting_account`: remote deprovision when a client
exists, then the repository delete, whose boolean is returned. -/
def delete_hosting_account (repo : HostingRepo) (api? : Option HostingApi)
    (account_id : Nat) : Except PyErr Bool :=
  wrapHosting "Failed to delete hosting account: "
    (match repo.getAccount account_id with
     | none => .error (.validationError "Hosting account not found")
     | some acc =>
       match api? with
       | some api =>
         match api.deleteAccount acc.username with
         | .error e => .error (.otherError e)
         | .ok _ => .ok (repo.deleteAccount account_id)
       | none => .ok (repo.deleteAccount account_id))

/-! ## Concrete scenario data -/

/-- A valid TXT record initially live at the remote provider. -/
def recTxtOld : DNSRec := ⟨"TXT", "www.example.com", "v=spf1 -all", 3600, none⟩

/-- A valid TXT record the caller wants to install. -/
def recTxtNew : DNSRec := ⟨"TXT", "api.example.com", "hello", 3600, none⟩

/-- Remote provider initially holding one record under id 0. -/
def dnsState0 : RemoteState := ⟨[(0, recTxtOld)], 1, 0⟩

/-- Failure schedule for the transactional path: the fetch (tick 0) and the
delete (tick 1) succeed, the recreate call (tick 2) raises. -/
def failAtAdd (t : Nat) : Bool := t == 2

/-- Failure schedule for the non-transactional path: backup fetch (0),
current fetch (1) and delete (2) succeed, the recreate call (3) raises, and
the fetch opening the backup restoration (4) raises as well. -/
def failAtAddAndRestore (t : Nat) : Bool := t == 3 || t == 4

/-- A registrar gateway on which every remote call succeeds and every domain
is reported available. -/
def apiAllOk : RegistrarApi :=
  { checkAvailability := fun _ => .ok (some true),
    registerDomain := fun _ => .ok (),
    enableWhoisPrivacy := fun _ => .ok (some true),
    getDomainStatus := fun _ => .ok (some false),
    getDomainInfo := fun _ => .ok none }

/-- A registrar gateway reporting every domain as taken. -/
def apiUnavailable : RegistrarApi :=
  { apiAllOk with checkAvailability := fun _ => .ok (some false) }

/-- A concrete contact record passing registration validation. -/
def contactW : ContactInfo := ⟨"ann@example.com", "Ann", "Lee"⟩
/-- A registrar gateway on which registration succeeds but the whois-privacy
call raises. -/
def apiPrivThrows : RegistrarApi :=
  { apiAllOk with enableWhoisPrivacy := fun _ => .error "network down" }
/-- A registrar gateway whose availability lookup raises for `b.com` and
reports every other name available. -/
def apiBThrows : RegistrarApi :=
  { apiAllOk with
    checkAvailability := fun n =>
      if n = "b.com" then .error "API Error" else .ok (some true) }
/-- A registrar gateway reporting the domain unlocked, with details expiring
on day 90. -/
def apiExpiry90 : RegistrarApi :=
  { apiAllOk with
    getDomainInfo := fun _ =>
      .ok (some { name := "", status := "active", expiry_date := 90,
                  registration_date := 0, nameservers := [], locked := false,
                  privacy_protection := false, auto_renew := true }) }

/-- A gateway like `apiExpiry90` but with expiry on day 30. -/
def apiExpiry30 : RegistrarApi :=
  { apiExpiry90 with
    getDomainInfo := fun _ =>
      .ok (some { name := "", status := "active", expiry_date := 30,
                  registration_date := 0, nameservers := [], locked := false,
                  privacy_protection := false, auto_renew := true }) }

/-- A gateway like `apiExpiry90` but reporting the domain locked. -/
def apiLocked : RegistrarApi :=
  { apiExpiry90 with getDomainStatus := fun _ => .ok (some true) }
/-- An active basic hosting package. -/
def pkgBasic : HPackage := ⟨"basic", true, 1024, 10240⟩

/-- A live account occupying the domain `taken.com`. -/
def accTaken : HAccount :=
  ⟨"taken.com", "user1", "active", none, "1.2.3.4", 0, 0, some 400,
    some pkgBasic⟩

/-- A repository that already holds `accTaken` for `taken.com`. -/
def repoTaken : HostingRepo :=
  { getPackage := fun _ => some pkgBasic,
    getCustomer := fun _ => some ⟨"c@example.com"⟩,
    getAccountByDomain := fun d => if d = "taken.com" then some accTaken else none,
    getAccount := fun _ => some accTaken,
    deleteAccount := fun _ => true }
/-- The property of claim C10 for one operation result: any raised failure is
a `HostingError`. -/
def onlyHostingErrors {α : Type} (r : Except PyErr α) : Prop :=
  ∀ e, r = .error e → ∃ m, e = .hostingError m
/-- A repository holding nothing at all. -/
def repoNone : HostingRepo :=
  { getPackage := fun _ => none, getCustomer := fun _ => none,
    getAccountByDomain := fun _ => none, getAccount := fun _ => none,
    deleteAccount := fun _ => false }

/-! ## Claim theorems -/

example : validate_domain_name "example.com" = true := by decide
example : validate_domain_name "test.co.uk" = true := by decide
example : validate_domain_name "my-domain.org" = true := by decide
example : validate_domain_name "invalid" = false := by decide
example : validate_domain_name ".com" = false := by decide
example : validate_domain_name "test..com" = false := by decide
example : validate_domain_name "-test.com" = false := by decide
example : validate_domain_name "test-.com" = false := by decide
example : validate_domain_name "test_.com" = false := by decide
example : validate_domain_name "" = false := by decide
example : validate_domain_name (String.mk (List.replicate 64 'a') ++ ".com") = false := by decide
example : (validate_domain_syntax_svc "a-.com").valid = true := by decide
example : validate_domain_name "a-.com" = false := by decide
example : (validate_domain_syntax_svc "example.com").valid = true := by decide
example : (validate_domain_syntax_svc "-a.com").valid = false := by decide
example : validate_domain_name ("a." ++ String.mk (List.replicate 64 'b')) = true := by decide
example : (validate_domain_syntax_svc ("a." ++ String.mk (List.replicate 64 'b'))).valid = false := by decide

example : validate_dns_name "www.example.com" = true := by decide
example : validate_dns_name "*.example.com" = true := by decide
example : validate_dns_name "example.com." = true := by decide
example : validate_dns_name "-bad.com" = false := by decide
example :
    validate_dns_record_input "MX" "mail.example.com" "mx.example.com" 3600 none =
      .error (.validationError "Priority is required for MX records") := by rfl
example :
    validate_dns_record_input "MX" "mail.example.com" "mx.example.com" 3600 (some 70000) =
      .error (.validationError "Priority must be between 0 and 65535") := by rfl
example :
    validate_dns_record_input "MX" "mail.example.com" "mx.example.com" 3600 (some 10) =
      .ok () := by rfl
example :
    validate_dns_record_input "TXT" "example.com"
      (String.mk (List.replicate 256 'a')) 3600 none = .ok () := by rfl

/-- Claim C1: the claim says that with a `db_session` injected the delete-all
then recreate-all sequence is atomic — on any mid-sequence failure the remote
record set afterwards equals the record set before the call.  The code is
wrong: `with db_session.begin()` can roll back only database writes, while
`delete_dns_record`/`add_dns_record` are remote API calls; at this concrete
input the delete succeeds remotely, the recreate raises, the wrapped
`DNSError` propagates, and the remote record set is left empty — a partial
state unequal to the pre-call set. -/
theorem update_with_transaction_leaves_partial_remote_state :
    (update_dns_records failAtAdd true "example.com" [recTxtNew] dnsState0).1 =
      .error (.dnsError
        "Failed to update DNS records: Failed to add DNS record: remote API failure") ∧
    (update_dns_records failAtAdd true "example.com" [recTxtNew] dnsState0).2.records
      = [] ∧
    dnsState0.records = [(0, recTxtOld)] := by
  exact ⟨rfl, rfl, rfl⟩

/-- Claim C2: the claim says that when the non-transactional update fails and
the backup restoration also fails, the caller observes a raised fatal
`DNSError` marking the restoration failure.  The code is wrong:
`_restore_from_backup` does raise
`DNSError("Critical: DNS restoration failed for ...")` (first conjunct: the
restoration at the reached intermediate state fails critically), but the
outer `except Exception` of `_update_records_without_transaction` catches it
and returns `False`, so `update_dns_records` returns an ordinary `False`
(second conjunct) while the remote record set is left empty and non-backed-up
(third conjunct). -/
theorem critical_restore_failure_returns_false :
    (restore_from_backup failAtAddAndRestore "example.com" [recTxtOld]
        ⟨[], 1, 4⟩).1 =
      .error (.dnsError "Critical: DNS restoration failed for example.com") ∧
    (update_dns_records failAtAddAndRestore false "example.com" [recTxtNew]
        dnsState0).1 = .ok false ∧
    (update_dns_records failAtAddAndRestore false "example.com" [recTxtNew]
        dnsState0).2.records = [] := by
  exact ⟨rfl, rfl, rfl⟩

/-- Claim C7, counterexample: the two validators do not have identical
semantics — the manager's `_validate_domain_name` rejects `a-.com` (the first
label may not end in a hyphen) while the validation service's
`validate_domain_syntax_svc` reports it valid (it only checks a global
leading/trailing hyphen). -/
theorem domain_validators_disagree_on_trailing_hyphen_label :
    validate_domain_name "a-.com" = false ∧
    (validate_domain_syntax_svc "a-.com").valid = true := by
  exact ⟨by decide, by decide⟩

/-- Claim C7, amended: the `DomainManager` validator and the
`DomainValidationService` syntax check are not equivalent, in both
directions: the service accepts names the manager rejects (a label with a
trailing hyphen, a one-letter TLD), and the manager accepts names the
service rejects (a final part longer than 63 characters, which the manager's
`[a-zA-Z]{2,}` TLD group does not bound); the two agree on ordinary
well-formed names and on names that are ill-formed under both grammars. -/
theorem domain_validators_not_equivalent :
    ((validate_domain_syntax_svc "ab.c").valid = true ∧
      validate_domain_name "ab.c" = false) ∧
    (validate_domain_name ("a." ++ String.mk (List.replicate 64 'b')) = true ∧
      (validate_domain_syntax_svc ("a." ++ String.mk (List.replicate 64 'b'))).valid
        = false) ∧
    (validate_domain_name "example.com" = true ∧
      (validate_domain_syntax_svc "example.com").valid = true) ∧
    (validate_domain_name "-a.com" = false ∧
      (validate_domain_syntax_svc "-a.com").valid = false) ∧
    (validate_domain_name "a_b.com" = false ∧
      (validate_domain_syntax_svc "a_b.com").valid = false) ∧
    (validate_domain_name "nodot" = false ∧
      (validate_domain_syntax_svc "nodot").valid = false) := by
  refine ⟨⟨by decide, by decide⟩, ⟨by decide, by decide⟩, ⟨by decide, by decide⟩,
    ⟨by decide, by decide⟩, ⟨by decide, by decide⟩, ⟨by decide, by decide⟩⟩

/-- Claim C8: the claim says per-record validation rejects an MX record with
no priority, rejects priority 70000, accepts priority 10, and rejects a TXT
value longer than 255 bytes.  The three MX conjuncts hold, but the TXT bound
is not enforced: the `validation_methods` entry for TXT is a lambda returning
`len(v) <= 255`, whose boolean result the caller discards instead of raising
— a 256-byte TXT value passes validation (last conjunct), contradicting the
spec and the code's own `len(v) <= 255` check. -/
theorem mx_priority_enforced_but_txt_length_not :
    validate_dns_record_input "MX" "mail.example.com" "mx.example.com" 3600 none
      = .error (.validationError "Priority is required for MX records") ∧
    validate_dns_record_input "MX" "mail.example.com" "mx.example.com" 3600
        (some 70000)
      = .error (.validationError "Priority must be between 0 and 65535") ∧
    validate_dns_record_input "MX" "mail.example.com" "mx.example.com" 3600
        (some 10) = .ok () ∧
    validate_dns_record_input "TXT" "example.com"
        (String.mk (List.replicate 256 'a')) 3600 none = .ok () := by
  exact ⟨rfl, rfl, rfl, rfl⟩

/-- A passing registration validation implies the domain-name syntax check
passed (it is the first check of `_validate_registration_input`). -/
theorem validate_registration_input_name_ok {name : String} {years : Int}
    {c : ContactInfo}
    (h : validate_registration_input name years c = .ok ()) :
    validate_domain_name name = true := by
  cases hv : validate_domain_name name with
  | true => rfl
  | false =>
    unfold validate_registration_input at h
    rw [hv] at h
    simp at h

/-- Claim C3: after passing input validation, `register_domain` re-checks
availability; an unavailable report makes it raise
`DomainError("... is not available")` with the remote registration never
invoked, and an available report followed by a successful remote
registration yields the `Domain` with status `active`,
`expiry = now + 365*years` days, `registration_date = now`, the default
nameservers, `locked = false`, `privacy_protection = false`,
`auto_renew = true`. -/
theorem register_domain_availability_and_success (api : RegistrarApi)
    (now : Int) (name : String) (years : Int) (c : ContactInfo)
    (hval : validate_registration_input name years c = .ok ()) :
    (∀ resp, api.checkAvailability name = .ok resp → resp.getD false = false →
      (register_domain api now name years c).1 =
        .error (.domainError ("Domain " ++ name ++ " is not available")) ∧
      RemoteOp.registerOp name ∉ (register_domain api now name years c).2) ∧
    (∀ resp, api.checkAvailability name = .ok resp → resp.getD false = true →
      api.registerDomain name = .ok () →
      (register_domain api now name years c).1 =
        .ok { name := name, status := "active",
              expiry_date := now + 365 * years, registration_date := now,
              nameservers := ["ns1.default.com", "ns2.default.com"],
              locked := false, privacy_protection := false,
              auto_renew := true } ∧
      RemoteOp.checkAvail name ∈ (register_domain api now name years c).2) := by
  have hv : validate_domain_name name = true :=
    validate_registration_input_name_ok hval
  constructor
  · intro resp hresp hfalse
    unfold register_domain
    rw [hval]
    unfold check_domain_availability
    rw [hv]
    simp [hresp, hfalse]
  · intro resp hresp htrue hreg
    unfold register_domain
    rw [hval]
    unfold check_domain_availability
    rw [hv]
    simp [hresp, htrue, hreg]



/-- Witness for the C3 theorem: at a concrete gateway, contact and clock, the
validation hypothesis holds and both conclusions apply — the unavailable
branch raises without a registration call, the available branch returns the
populated `Domain`. -/
theorem register_domain_availability_and_success_witness :
    ((register_domain apiUnavailable 0 "example.com" 1 contactW).1 =
        .error (.domainError "Domain example.com is not available") ∧
      RemoteOp.registerOp "example.com" ∉
        (register_domain apiUnavailable 0 "example.com" 1 contactW).2) ∧
    ((register_domain apiAllOk 0 "example.com" 1 contactW).1 =
        .ok { name := "example.com", status := "active", expiry_date := 365,
              registration_date := 0,
              nameservers := ["ns1.default.com", "ns2.default.com"],
              locked := false, privacy_protection := false,
              auto_renew := true } ∧
      RemoteOp.checkAvail "example.com" ∈
        (register_domain apiAllOk 0 "example.com" 1 contactW).2) := by
  constructor
  · have h := (register_domain_availability_and_success apiUnavailable 0
      "example.com" 1 contactW (by rfl)).1 (some false) rfl rfl
    simpa using h
  · have h := (register_domain_availability_and_success apiAllOk 0
      "example.com" 1 contactW (by rfl)).2 (some true) rfl rfl rfl
    simpa using h



/-- Claim C4, counterexample: the claim says a failure of the
privacy-enabling step — whether it reports failure or throws — never causes
`register_domain_with_privacy` to raise.  At this input `register_domain`
succeeds, yet the privacy call raises and
`register_domain_with_privacy` re-raises the wrapped `DomainError` instead of
returning the registration result. -/
theorem register_with_privacy_raises_when_privacy_call_throws :
    (∃ d, (register_domain apiPrivThrows 0 "example.com" 1 contactW).1 =
        .ok d) ∧
    (register_domain_with_privacy apiPrivThrows 0 "example.com" 1 contactW).1 =
      .error (.domainError
        "Failed to enable privacy protection: network down") := by
  exact ⟨⟨_, rfl⟩, rfl⟩

/-- Claim C4, amended: when `register_domain` succeeds,
`register_domain_with_privacy` returns the registration result whenever the
privacy call returns a report (privacy_protection true exactly on a success
report, unchanged — false — on a failure report, without raising), but a
privacy call that throws makes `register_domain_with_privacy` re-raise the
wrapped `DomainError` instead of returning the registration result. -/
theorem register_with_privacy_best_effort_unless_throw (api : RegistrarApi)
    (now : Int) (name : String) (years : Int) (c : ContactInfo)
    (dom : Domain) (tr : List RemoteOp)
    (hreg : register_domain api now name years c = (.ok dom, tr)) :
    (∀ resp, api.enableWhoisPrivacy name = .ok resp → resp.getD false = true →
      (register_domain_with_privacy api now name years c).1 =
        .ok { dom with privacy_protection := true }) ∧
    (∀ resp, api.enableWhoisPrivacy name = .ok resp → resp.getD false = false →
      (register_domain_with_privacy api now name years c).1 = .ok dom) ∧
    (∀ e, api.enableWhoisPrivacy name = .error e →
      (register_domain_with_privacy api now name years c).1 =
        .error (.domainError ("Failed to enable privacy protection: " ++ e))) := by
  refine ⟨?_, ?_, ?_⟩
  · intro resp hresp htrue
    unfold register_domain_with_privacy
    rw [hreg]
    unfold enable_privacy_protection
    simp [hresp, htrue]
  · intro resp hresp hfalse
    unfold register_domain_with_privacy
    rw [hreg]
    unfold enable_privacy_protection
    simp [hresp, hfalse]
  · intro e he
    unfold register_domain_with_privacy
    rw [hreg]
    unfold enable_privacy_protection
    simp [he]

/-- Witness for the amended C4 theorem: on the all-succeeding gateway the
combined operation returns the registered domain with privacy enabled. -/
theorem register_with_privacy_best_effort_witness :
    (register_domain_with_privacy apiAllOk 0 "example.com" 1 contactW).1 =
      .ok { name := "example.com", status := "active", expiry_date := 365,
            registration_date := 0,
            nameservers := ["ns1.default.com", "ns2.default.com"],
            locked := false, privacy_protection := true,
            auto_renew := true } := by
  have h := (register_with_privacy_best_effort_unless_throw apiAllOk 0
    "example.com" 1 contactW _ _ rfl).1 (some true) rfl rfl
  simpa using h

/-- Reading a dict after an insert: the inserted key maps to the new value,
every other key is unchanged. -/
theorem dictLookup_dictInsert (k n : String) (v : Bool)
    (l : List (String × Bool)) :
    dictLookup n (dictInsert k v l) =
      if n = k then some v else dictLookup n l := by
  induction l with
  | nil =>
    simp [dictInsert, dictLookup]
  | cons p rest ih =>
    obtain ⟨k1, v1⟩ := p
    unfold dictInsert
    by_cases h1 : k1 = k
    · rw [if_pos h1]
      subst h1
      by_cases h2 : n = k1 <;> simp [dictLookup, h2]
    · rw [if_neg h1]
      by_cases h2 : n = k1
      · have h3 : ¬ n = k := by rw [h2]; exact h1
        simp [dictLookup, h2, h3, h1]
      · simp [dictLookup, h2, ih]

/-- Keys after an insert: the inserted key joins the key set, nothing else
changes. -/
theorem mem_keys_dictInsert (k n : String) (v : Bool)
    (l : List (String × Bool)) :
    (n ∈ (dictInsert k v l).map Prod.fst) ↔
      (n = k ∨ n ∈ l.map Prod.fst) := by
  induction l with
  | nil => simp [dictInsert]
  | cons p rest ih =>
    obtain ⟨k1, v1⟩ := p
    unfold dictInsert
    by_cases h1 : k1 = k
    · rw [if_pos h1]
      subst h1
      simp only [List.map_cons, List.mem_cons]
      tauto
    · rw [if_neg h1]
      simp only [List.map_cons, List.mem_cons, ih]
      tauto

/-- Inserting preserves key distinctness. -/
theorem nodup_keys_dictInsert (k : String) (v : Bool)
    (l : List (String × Bool)) (h : (l.map Prod.fst).Nodup) :
    ((dictInsert k v l).map Prod.fst).Nodup := by
  induction l with
  | nil => simp [dictInsert]
  | cons p rest ih =>
    obtain ⟨k1, v1⟩ := p
    rw [List.map_cons, List.nodup_cons] at h
    unfold dictInsert
    by_cases h1 : k1 = k
    · rw [if_pos h1]
      simp only [List.map_cons, List.nodup_cons]
      exact ⟨h.1, h.2⟩
    · rw [if_neg h1]
      simp only [List.map_cons, List.nodup_cons]
      refine ⟨?_, ih h.2⟩
      intro hmem
      rcases (mem_keys_dictInsert k k1 v rest).mp hmem with heq | hmem2
      · exact h1 heq
      · exact h.1 hmem2

/-- A name not in the remaining batch keeps its accumulator entry. -/
theorem bulkAvailAux_lookup_notmem (api : RegistrarApi) (ds : List String)
    (acc : List (String × Bool)) (n : String) (hn : n ∉ ds) :
    dictLookup n (bulkAvailAux api ds acc) = dictLookup n acc := by
  induction ds generalizing acc with
  | nil => rfl
  | cons d rest ih =>
    have hnd : n ≠ d := fun h => hn (h ▸ List.mem_cons_self d rest)
    have hnrest : n ∉ rest := fun h => hn (List.mem_cons_of_mem d h)
    unfold bulkAvailAux
    rw [ih _ hnrest, dictLookup_dictInsert]
    simp [hnd]

/-- Every name of the batch ends mapped to its own single-check outcome. -/
theorem bulkAvailAux_lookup_mem (api : RegistrarApi) (ds : List String)
    (acc : List (String × Bool)) (n : String) (hn : n ∈ ds) :
    dictLookup n (bulkAvailAux api ds acc) = some (singleAvailOutcome api n) := by
  induction ds generalizing acc with
  | nil => cases hn
  | cons d rest ih =>
    by_cases hr : n ∈ rest
    · exact ih _ hr
    · have hnd : n = d := by
        rcases List.mem_cons.mp hn with h | h
        · exact h
        · exact absurd h hr
      subst hnd
      unfold bulkAvailAux
      rw [bulkAvailAux_lookup_notmem api rest _ n hr, dictLookup_dictInsert]
      simp

/-- The batch loop preserves key distinctness. -/
theorem bulkAvailAux_nodup (api : RegistrarApi) (ds : List String)
    (acc : List (String × Bool)) (h : (acc.map Prod.fst).Nodup) :
    ((bulkAvailAux api ds acc).map Prod.fst).Nodup := by
  induction ds generalizing acc with
  | nil => exact h
  | cons d rest ih =>
    exact ih _ (nodup_keys_dictInsert d (singleAvailOutcome api d) acc h)

/-- The keys of the batch result are the batch names plus the accumulator
keys. -/
theorem bulkAvailAux_mem_keys (api : RegistrarApi) (ds : List String)
    (acc : List (String × Bool)) (n : String) :
    n ∈ (bulkAvailAux api ds acc).map Prod.fst ↔
      (n ∈ ds ∨ n ∈ acc.map Prod.fst) := by
  induction ds generalizing acc with
  | nil => simp [bulkAvailAux]
  | cons d rest ih =>
    unfold bulkAvailAux
    rw [ih]
    rw [mem_keys_dictInsert]
    simp [List.mem_cons]
    tauto

/-- Claim C5: the bulk availability check is total (its type raises nothing)
and returns a dict with distinct keys, whose key set is exactly the set of
input names, where every input name is mapped to the outcome of its own
single availability check — an outcome in which any raised per-name
exception has been recorded as `False`. -/
theorem check_bulk_domains_availability_per_name (api : RegistrarApi)
    (domain_list : List String) :
    ((check_bulk_domains_availability api domain_list).map Prod.fst).Nodup ∧
    (∀ n, n ∈ (check_bulk_domains_availability api domain_list).map Prod.fst ↔
      n ∈ domain_list) ∧
    (∀ n, n ∈ domain_list →
      dictLookup n (check_bulk_domains_availability api domain_list) =
        some (singleAvailOutcome api n)) := by
  refine ⟨bulkAvailAux_nodup api domain_list [] (by simp), ?_, ?_⟩
  · intro n
    unfold check_bulk_domains_availability
    rw [bulkAvailAux_mem_keys]
    simp
  · intro n hn
    exact bulkAvailAux_lookup_mem api domain_list [] n hn



/-- Witness for the C5 theorem, the spec's own scenario: over
`["a.com", "b.com", "c.com"]` with `b.com`'s lookup raising, the result maps
`a.com` and `c.com` to their real outcomes and `b.com` to `False`. -/
theorem check_bulk_domains_availability_witness :
    dictLookup "a.com"
        (check_bulk_domains_availability apiBThrows ["a.com", "b.com", "c.com"])
      = some true ∧
    dictLookup "b.com"
        (check_bulk_domains_availability apiBThrows ["a.com", "b.com", "c.com"])
      = some false ∧
    dictLookup "c.com"
        (check_bulk_domains_availability apiBThrows ["a.com", "b.com", "c.com"])
      = some true := by
  have h := (check_bulk_domains_availability_per_name apiBThrows
    ["a.com", "b.com", "c.com"]).2.2
  refine ⟨?_, ?_, ?_⟩
  · rw [h "a.com" (by simp)]; rfl
  · rw [h "b.com" (by simp)]; rfl
  · rw [h "c.com" (by simp)]; rfl

/-- Claim C6: `check_transfer_eligibility` is total (never raises, by its
type) and returns `true` exactly when the remote lock status was fetched and
reports unlocked, the domain details were fetched, and at least 60 days
remain until expiry — equivalently, it returns `false` exactly when the
domain is locked, or fewer than 60 days remain, or the lock-status or detail
fetch raises. -/
theorem check_transfer_eligibility_iff (api : RegistrarApi) (now : Int)
    (name : String) :
    check_transfer_eligibility api now name = true ↔
      ((∃ resp, api.getDomainStatus name = .ok resp ∧ resp.getD false = false) ∧
       (∃ dom, get_domain_details api name = .ok dom ∧
          60 ≤ dom.expiry_date - now)) := by
  unfold check_transfer_eligibility get_domain_locking_status
  cases hs : api.getDomainStatus name with
  | error e => simp
  | ok resp =>
    cases hl : resp.getD false with
    | true => simp [hl]
    | false =>
      cases hd : get_domain_details api name with
      | error e => simp [hl]
      | ok dom =>
        by_cases hexp : dom.expiry_date - now < 60
        · simp only [hl, Bool.false_eq_true, if_false, if_pos hexp]
          simp [hl]
          omega
        · simp only [hl, Bool.false_eq_true, if_false, if_neg hexp]
          simp [hl]
          omega



/-- Witness for the C6 theorem, the spec's own cases at clock day 0:
unlocked with expiry 90 days out is eligible, unlocked with expiry 30 days
out is not, locked is not even with expiry 90 days out. -/
theorem check_transfer_eligibility_witness :
    check_transfer_eligibility apiExpiry90 0 "example.com" = true ∧
    check_transfer_eligibility apiExpiry30 0 "example.com" = false ∧
    check_transfer_eligibility apiLocked 0 "example.com" = false := by
  refine ⟨?_, ?_, ?_⟩
  · exact (check_transfer_eligibility_iff apiExpiry90 0 "example.com").mpr
      ⟨⟨some false, rfl, rfl⟩,
        ⟨{ name := "example.com", status := "active", expiry_date := 90,
           registration_date := 0, nameservers := [], locked := false,
           privacy_protection := false, auto_renew := true }, rfl, by norm_num⟩⟩
  · cases hb : check_transfer_eligibility apiExpiry30 0 "example.com" with
    | false => rfl
    | true =>
      rcases (check_transfer_eligibility_iff apiExpiry30 0 "example.com").mp hb
        with ⟨_, dom, hdom, hge⟩
      cases hdom
      norm_num at hge
  · cases hb : check_transfer_eligibility apiLocked 0 "example.com" with
    | false => rfl
    | true =>
      rcases (check_transfer_eligibility_iff apiLocked 0 "example.com").mp hb
        with ⟨⟨resp, hresp, hfalse⟩, _⟩
      cases hresp
      cases hfalse

/-- When a hosting account already exists for the domain,
`create_hosting_body` fails before its remote provisioning step. -/
theorem create_hosting_body_existing_domain (repo : HostingRepo)
    (api? : Option HostingApi) (now : Int) (domain : String)
    (package_id customer_id : Nat) (username password : String)
    (acc : HAccount) (hex : repo.getAccountByDomain domain = some acc) :
    ∃ e, create_hosting_body repo api? now domain package_id customer_id
      username password = (.error e, false) := by
  unfold create_hosting_body
  cases hval : validate_hosting_input domain username password with
  | error e => exact ⟨e, rfl⟩
  | ok _ =>
    dsimp only
    cases hpkg : repo.getPackage package_id with
    | none => exact ⟨_, rfl⟩
    | some pkg =>
      dsimp only
      by_cases hact : pkg.active = true
      · rw [if_neg (fun h => h hact)]
        cases hcust : repo.getCustomer customer_id with
        | none => exact ⟨_, rfl⟩
        | some cust =>
          dsimp only
          rw [hex]
          exact ⟨_, rfl⟩
      · rw [if_pos hact]
        exact ⟨_, rfl⟩

/-- Claim C9: for a domain for which the repository already holds a hosting
account, `create_hosting_account` fails with a hosting-side error
(`HostingError`) and the remote provisioning API is not invoked during the
failing call — the remote call sits after the package, customer and
domain-uniqueness checks. -/
theorem create_hosting_account_rejects_existing_domain (repo : HostingRepo)
    (api? : Option HostingApi) (now : Int) (domain : String)
    (package_id customer_id : Nat) (username password : String)
    (acc : HAccount) (hex : repo.getAccountByDomain domain = some acc) :
    (∃ m, (create_hosting_account repo api? now domain package_id customer_id
        username password).1 = .error (.hostingError m)) ∧
    (create_hosting_account repo api? now domain package_id customer_id
        username password).2 = false := by
  obtain ⟨e, hbody⟩ := create_hosting_body_existing_domain repo api? now domain
    package_id customer_id username password acc hex
  unfold create_hosting_account
  rw [hbody]
  exact ⟨⟨"Failed to create hosting account: " ++ pyMsg e, rfl⟩, rfl⟩



/-- Witness for the C9 theorem: creating a second account for `taken.com`
with otherwise valid input fails with a `HostingError` and never reaches the
remote provisioning call. -/
theorem create_hosting_account_rejects_existing_domain_witness :
    (∃ m, (create_hosting_account repoTaken none 0 "taken.com" 1 1 "user2"
        "password123").1 = .error (.hostingError m)) ∧
    (create_hosting_account repoTaken none 0 "taken.com" 1 1 "user2"
        "password123").2 = false :=
  create_hosting_account_rejects_existing_domain repoTaken none 0 "taken.com"
    1 1 "user2" "password123" accTaken rfl



/-- The wrapping `except` clause yields only `HostingError` failures. -/
theorem wrapHosting_onlyHostingErrors {α : Type} (pre : String)
    (r : Except PyErr α) : onlyHostingErrors (wrapHosting pre r) := by
  intro e he
  cases r with
  | ok a => exact nomatch he
  | error e2 =>
    unfold wrapHosting at he
    injection he with h
    exact ⟨pre ++ pyMsg e2, h.symm⟩

/-- Claim C10 (implicit): no public `HostingManager` operation lets a
`ValidationError` escape — every failure of the seven public operations is a
`HostingError`, and the wrapped message carries the original validation
message (shown for the input-validation failure of account creation and for
the missing-account failure of suspension). -/
theorem hosting_manager_never_leaks_validation_error (repo : HostingRepo)
    (api? : Option HostingApi) (now : Int)
    (domain username password reason : String)
    (package_id customer_id account_id new_package_id : Nat) (years : Int) :
    onlyHostingErrors (create_hosting_account repo api? now domain package_id
      customer_id username password).1 ∧
    onlyHostingErrors (suspend_account repo api? account_id reason) ∧
    onlyHostingErrors (unsuspend_account repo api? account_id) ∧
    onlyHostingErrors (change_hosting_plan repo api? account_id new_package_id) ∧
    onlyHostingErrors (get_account_usage repo api? account_id) ∧
    onlyHostingErrors (renew_hosting_account repo now account_id years) ∧
    onlyHostingErrors (delete_hosting_account repo api? account_id) ∧
    (∀ m, validate_hosting_input domain username password =
        .error (.validationError m) →
      (create_hosting_account repo api? now domain package_id customer_id
          username password).1 =
        .error (.hostingError ("Failed to create hosting account: " ++ m))) ∧
    (repo.getAccount account_id = none →
      suspend_account repo api? account_id reason =
        .error (.hostingError
          "Failed to suspend hosting account: Hosting account not found")) := by
  refine ⟨?_, ?_, ?_, ?_, ?_, ?_, ?_, ?_, ?_⟩
  · show onlyHostingErrors (wrapHosting "Failed to create hosting account: "
      (create_hosting_body repo api? now domain package_id customer_id
        username password).1)
    exact wrapHosting_onlyHostingErrors _ _
  · unfold suspend_account
    exact wrapHosting_onlyHostingErrors _ _
  · unfold unsuspend_account
    exact wrapHosting_onlyHostingErrors _ _
  · unfold change_hosting_plan
    exact wrapHosting_onlyHostingErrors _ _
  · unfold get_account_usage
    exact wrapHosting_onlyHostingErrors _ _
  · unfold renew_hosting_account
    exact wrapHosting_onlyHostingErrors _ _
  · unfold delete_hosting_account
    exact wrapHosting_onlyHostingErrors _ _
  · intro m h
    unfold create_hosting_account create_hosting_body
    rw [h]
    rfl
  · intro h
    unfold suspend_account
    rw [h]
    rfl



/-- Witness for the C10 theorem: suspending a missing account raises the
`HostingError` that carries the original validation message. -/
theorem hosting_manager_never_leaks_validation_error_witness :
    suspend_account repoNone none 7 "Administrative" =
      .error (.hostingError
        "Failed to suspend hosting account: Hosting account not found") :=
  (hosting_manager_never_leaks_validation_error repoNone none 0 "x.com"
    "user1" "password123" "Administrative" 1 1 7 2 1).2.2.2.2.2.2.2.2 rfl

end DomainHosting
